import Mathlib

/-!
# Dimoca dashboard controller (`src/app.js`)

A shallow embedding of the polling / session logic of `app.js`:
the module-level variables (`intervaloDeActualizacion`, `miGrafico`,
`datosActuales`), the stored token, the DOM slots the controller reads and
writes, and the functions `logout`, `mostrarDashboard`, `cargarDatosReales`,
`actualizarGrafico`, `renderizarTabla`, `actualizarTarjetas` and
`verificarUmbrales`.

Conventions.
* Browser built-ins whose result the source only consumes (`parseFloat`,
  number-to-string conversion, `Date` formatting) are fields of `Plataforma`;
  every general theorem holds for all platforms.
* Numbers carried by a record are finite and are represented by their exact
  rational value; a number produced by `parseFloat` is a `JSNum`.
* `cargarDatosReales` is asynchronous. It is split at its suspension point
  into `cargarDatosReales_solicitar` (the code up to the call of `fetch`) and
  `cargarDatosReales_completar` (the code that runs once the response is
  known). `response.json()` is a second suspension point; nothing of the
  program state is read or written between the two, so they are one step.
* DOM elements that the source dereferences without a guard are assumed to
  exist; the canvas `myChart`, which the source does guard, is a flag.
-/

namespace Dimoca

/-! ## Values -/

/-- A JavaScript number as this program can observe it. -/
inductive JSNum where
  | nan
  | fin (q : ℚ)
  | posInf
  | negInf
  deriving DecidableEq

namespace JSNum

/-- Truthiness of a number: `NaN` and zero are falsy. -/
def truthy : JSNum → Bool
  | nan => false
  | fin q => decide (q ≠ 0)
  | posInf => true
  | negInf => true

/-- The expression `a || b` on numbers. -/
def orElse (a b : JSNum) : JSNum := if a.truthy then a else b

/-- The comparison `a > b`; any comparison with `NaN` is false. -/
def gt : JSNum → JSNum → Bool
  | nan, _ => false
  | _, nan => false
  | posInf, posInf => false
  | posInf, _ => true
  | negInf, _ => false
  | fin _, posInf => false
  | fin _, negInf => true
  | fin a, fin b => decide (b < a)

end JSNum

/-- One telemetry record of the array returned by `GET /mediciones`. -/
structure Medicion where
  fecha : String
  device_id : String
  temperatura : ℚ
  humedad : ℚ
  bateria : ℚ
  deriving DecidableEq

/-- Browser built-ins used by the controller. -/
structure Plataforma where
  /-- The global `parseFloat`. -/
  parseFloat : String → JSNum
  /-- The empty text is not a number: `parseFloat("")` is `NaN`. -/
  parseFloat_vacio : parseFloat "" = JSNum.nan
  /-- Conversion of a number inside a template literal. -/
  numToString : JSNum → String
  /-- The composite `new Date(x).toLocaleString()`. -/
  toLocaleString : String → String
  /-- The composite `new Date(x).toLocaleTimeString()`. -/
  toLocaleTimeString : String → String

/-- The `Chart` object held in `miGrafico`: its identity, `data.labels`,
`data.datasets[0].data`, `data.datasets[1].data`, and how many times
`resize()` and `update()` were called on it. -/
structure Grafico where
  id : Nat
  labels : List String
  temperaturas : List ℚ
  humedades : List ℚ
  resizes : Nat
  updates : Nat
  deriving DecidableEq

/-- A call of `fetch` on the measurements endpoint. -/
structure Peticion where
  url : String
  authorization : String
  deriving DecidableEq

/-- Outcome of one `fetch` followed by `response.json()`. -/
inductive Respuesta where
  /-- The promise returned by `fetch` rejects. -/
  | rechazada (motivo : String)
  /-- A response with `response.ok` false. -/
  | noOk (status : Nat)
  /-- `response.json()` rejects. -/
  | jsonInvalido (motivo : String)
  /-- A response with `response.ok` true and a parsed array. -/
  | ok (mediciones : List Medicion)
  deriving DecidableEq

/-- Program state: module variables, local storage, live timers, the DOM
slots used by the controller, and a log of observable effects. -/
structure Estado where
  /-- The variable `intervaloDeActualizacion`; `none` is `null`. -/
  intervaloDeActualizacion : Option Nat
  /-- The variable `miGrafico`. -/
  miGrafico : Option Grafico
  /-- The variable `datosActuales`. -/
  datosActuales : List Medicion
  /-- The entry `ufox_token` of `localStorage`. -/
  token : Option String
  /-- Timers armed by `setInterval` and not yet cleared. -/
  timers : List Nat
  /-- Last handle given out by `setInterval`. -/
  timerSeq : Nat
  /-- Last identity given to a `Chart` object. -/
  graficoSeq : Nat
  /-- Class `hidden` on `login-section`. -/
  loginHidden : Bool
  /-- Class `hidden` on `dashboard-section`. -/
  dashboardHidden : Bool
  /-- Class `hidden` on `loading-msg`. -/
  loadingHidden : Bool
  username : String
  password : String
  /-- Text of `last-temp`, `last-hum`, `last-bat`. -/
  temp : String
  hum : String
  bat : String
  /-- Content of `tabla-datos`. -/
  tableBody : String
  /-- Values of `data-limit`, `date-start`, `date-end`. -/
  dataLimit : String
  dateStart : String
  dateEnd : String
  /-- Values of `limit-temp`, `limit-hum`. -/
  limitTemp : String
  limitHum : String
  /-- Whether the element `myChart` exists. -/
  hayCanvas : Bool
  /-- Style width of `chart-body`. -/
  chartBodyWidth : String
  /-- Content and class `hidden` of `chart-alerts`. -/
  alertas : String
  alertasHidden : Bool
  /-- Lines written to the console. -/
  consola : List String
  /-- Calls of `fetch` on the measurements endpoint, oldest first. -/
  peticiones : List Peticion
  /-- Number of calls of `cargarDatosReales`. -/
  invocaciones : Nat
  deriving DecidableEq

/-! ## Configuration -/

def API_URL : String := "https://dimoca-backend.onrender.com"

def ENDPOINTS_MEDICIONES : String := "/mediciones"

/-! ## Truthiness -/

/-- A string is truthy when it is not empty. -/
def strTruthy (s : String) : Bool := decide (s ≠ "")

/-! ## Timers -/

/-- The call `clearInterval(h)`. -/
def clearInterval (h : Nat) (s : Estado) : Estado :=
  { s with timers := s.timers.filter (fun t => decide (t ≠ h)) }

/-- The call `setInterval(callback, 5000)`: a new positive handle, armed. -/
def setInterval (s : Estado) : Nat × Estado :=
  (s.timerSeq + 1,
   { s with timerSeq := s.timerSeq + 1, timers := s.timers ++ [s.timerSeq + 1] })

/-! ## Session -/

/-- The function `logout`. -/
def logout (s : Estado) : Estado :=
  let s1 : Estado :=
    match s.intervaloDeActualizacion with
    | some h =>
      if h ≠ 0 then { clearInterval h s with intervaloDeActualizacion := none } else s
    | none => s
  { s1 with
    token := none
    dashboardHidden := true
    loginHidden := false
    username := ""
    password := "" }

/-! ## Query construction -/

/-- The value of `urlFinal` in `cargarDatosReales`. -/
def urlFinal (limite fechaInicio fechaFin : String) : String :=
  let base := API_URL ++ ENDPOINTS_MEDICIONES
  if strTruthy fechaInicio && strTruthy fechaFin then
    base ++ ("?start_date=" ++ fechaInicio ++ "&end_date=" ++ fechaFin)
  else
    base ++ ("?limit=" ++ limite)

/-- The part of `cargarDatosReales` that runs up to the call of `fetch`. -/
def cargarDatosReales_solicitar (s : Estado) : Estado :=
  let s0 : Estado := { s with invocaciones := s.invocaciones + 1 }
  match s0.token with
  | none => logout s0
  | some token =>
    if strTruthy token then
      let limite := s0.dataLimit
      let fechaInicio := s0.dateStart
      let fechaFin := s0.dateEnd
      { s0 with
        peticiones := s0.peticiones ++
          [{ url := urlFinal limite fechaInicio fechaFin
             authorization := "Bearer " ++ token }] }
    else logout s0

/-- The function `mostrarDashboard`. -/
def mostrarDashboard (s : Estado) : Estado :=
  let s1 : Estado := { s with loginHidden := true, dashboardHidden := false }
  let s2 := cargarDatosReales_solicitar s1
  let s3 : Estado :=
    match s2.intervaloDeActualizacion with
    | some h => if h ≠ 0 then clearInterval h s2 else s2
    | none => s2
  let r := setInterval s3
  { r.2 with intervaloDeActualizacion := some r.1 }

/-- The callback given to `setInterval`. -/
def alDispararTimer (s : Estado) : Estado :=
  cargarDatosReales_solicitar
    { s with consola := s.consola ++ ["⏰ Auto-actualizando datos..."] }

/-- One 5-second interval elapses: every timer that is still live when its
turn comes runs the callback. -/
def pasarIntervalo (s : Estado) : Estado :=
  s.timers.foldl (fun st t => if t ∈ st.timers then alDispararTimer st else st) s

/-- The passage of `n` intervals of 5 seconds. -/
def transcurrir : Nat → Estado → Estado
  | 0, s => s
  | n + 1, s => transcurrir n (pasarIntervalo s)

/-! ## Views -/

/-- One row of the table, the template literal of `renderizarTabla`. -/
def filaHTML (P : Plataforma) (dato : Medicion) : String :=
  let fecha := P.toLocaleString (dato.fecha ++ "Z")
  "\n            <tr>\n                <td>" ++ fecha ++
  "</td>\n                <td><strong>" ++ dato.device_id ++
  "</strong></td>\n                <td>" ++ P.numToString (.fin dato.temperatura) ++
  " °C</td>\n                <td>" ++ P.numToString (.fin dato.humedad) ++
  " %</td>\n                <td>\n                    <span style=\"color: " ++
  (if dato.bateria < 20 then "red" else "green") ++
  "\">\n                        " ++ P.numToString (.fin dato.bateria) ++
  " %\n                    </span>\n                </td>\n            </tr>\n        "

/-- The function `renderizarTabla`. -/
def renderizarTabla (P : Plataforma) (listaDatos : List Medicion) (s : Estado) : Estado :=
  let filasHTML := String.join (listaDatos.map (filaHTML P))
  { s with tableBody := filasHTML }

/-- The row written to the table when the fetched array is empty. -/
def filaSinDatos : String :=
  "<tr><td colspan=\"5\" class=\"text-center\">No hay datos en este rango.</td></tr>"

/-- The function `actualizarTarjetas`; `none` is an absent record. -/
def actualizarTarjetas (P : Plataforma) (ultimoDato : Option Medicion) (s : Estado) : Estado :=
  match ultimoDato with
  | none => { s with temp := "-- °C", hum := "-- %", bat := "-- %" }
  | some u =>
    { s with
      temp := P.numToString (.fin u.temperatura) ++ " °C"
      hum := P.numToString (.fin u.humedad) ++ " %"
      bat := P.numToString (.fin u.bateria) ++ " %" }

/-- The width given to `chart-body` for a number of points: 30 pixels per
point above 30 points, the whole container otherwise. -/
def anchoChartBody (P : Plataforma) (puntos : Nat) : String :=
  if puntos > 30 then
    let nuevoAncho := puntos * 30
    P.numToString (.fin nuevoAncho) ++ "px"
  else
    "100%"

/-- The function `actualizarGrafico`. -/
def actualizarGrafico (P : Plataforma) (datos : List Medicion) (s : Estado) : Estado :=
  if !s.hayCanvas then s else
  let datosCronologicos := datos.reverse
  let s1 : Estado := { s with chartBodyWidth := anchoChartBody P datosCronologicos.length }
  let etiquetas := datosCronologicos.map (fun d => P.toLocaleTimeString (d.fecha ++ "Z"))
  let temperaturas := datosCronologicos.map (fun d => d.temperatura)
  let humedades := datosCronologicos.map (fun d => d.humedad)
  match s1.miGrafico with
  | some g =>
    { s1 with
      miGrafico := some
        { g with
          labels := etiquetas
          temperaturas := temperaturas
          humedades := humedades
          resizes := g.resizes + 1
          updates := g.updates + 1 } }
  | none =>
    { s1 with
      graficoSeq := s1.graficoSeq + 1
      miGrafico := some
        { id := s1.graficoSeq + 1
          labels := etiquetas
          temperaturas := temperaturas
          humedades := humedades
          resizes := 0
          updates := 0 } }

/-! ## Alerts -/

/-- The temperature message pushed by `verificarUmbrales`. -/
def mensajeTemperatura (P : Plataforma) (ultimoDato : Medicion) (limiteTemp : JSNum) : String :=
  "⚠️ ALERTA: La Temperatura actual (" ++ P.numToString (.fin ultimoDato.temperatura) ++
  "°C) supera el límite de " ++ P.numToString limiteTemp ++ "°C."

/-- The humidity message pushed by `verificarUmbrales`. -/
def mensajeHumedad (P : Plataforma) (ultimoDato : Medicion) (limiteHum : JSNum) : String :=
  "⚠️ ALERTA: La Humedad actual (" ++ P.numToString (.fin ultimoDato.humedad) ++
  "%) supera el límite de " ++ P.numToString limiteHum ++ "%."

/-- The value of `limiteTemp` in `verificarUmbrales`. -/
def limiteTempDe (P : Plataforma) (s : Estado) : JSNum :=
  (P.parseFloat s.limitTemp).orElse (.fin 1000)

/-- The value of `limiteHum` in `verificarUmbrales`. -/
def limiteHumDe (P : Plataforma) (s : Estado) : JSNum :=
  (P.parseFloat s.limitHum).orElse (.fin 1000)

/-- The array `mensajes` that `verificarUmbrales` builds for a present record. -/
def mensajesUmbrales (P : Plataforma) (ultimoDato : Medicion) (s : Estado) : List String :=
  let limiteTemp := limiteTempDe P s
  let limiteHum := limiteHumDe P s
  let mensajes : List String := []
  let mensajes :=
    if JSNum.gt (.fin ultimoDato.temperatura) limiteTemp then
      mensajes ++ [mensajeTemperatura P ultimoDato limiteTemp]
    else mensajes
  let mensajes :=
    if JSNum.gt (.fin ultimoDato.humedad) limiteHum then
      mensajes ++ [mensajeHumedad P ultimoDato limiteHum]
    else mensajes
  mensajes

/-- The function `verificarUmbrales`; `none` is an absent record. -/
def verificarUmbrales (P : Plataforma) (ultimoDato : Option Medicion) (s : Estado) : Estado :=
  match ultimoDato with
  | none => s
  | some u =>
    let mensajes := mensajesUmbrales P u s
    if mensajes.length > 0 then
      { s with alertas := "<br>".intercalate mensajes, alertasHidden := false }
    else
      { s with alertasHidden := true, alertas := "" }

/-! ## Completion of a poll cycle -/

/-- The statements of the `try` block of `cargarDatosReales` that follow the
`await`: the state they leave and the error they throw, if any. -/
def cuerpoTrasRespuesta (P : Plataforma) (r : Respuesta) (s : Estado) :
    Estado × Option String :=
  match r with
  | .rechazada motivo => (s, some motivo)
  | .noOk status =>
    let s1 := if status = 401 then logout s else s
    (s1, some "Error al obtener datos")
  | .jsonInvalido motivo => (s, some motivo)
  | .ok mediciones =>
    let s1 : Estado := { s with datosActuales := mediciones }
    if mediciones.length = 0 then
      let s2 : Estado :=
        match s1.miGrafico with
        | some g =>
          { s1 with
            miGrafico := some
              { g with labels := [], temperaturas := [], humedades := [],
                       updates := g.updates + 1 } }
        | none => s1
      ({ s2 with tableBody := filaSinDatos }, none)
    else
      let s2 := renderizarTabla P mediciones s1
      let s3 := actualizarTarjetas P mediciones.head? s2
      let s4 := actualizarGrafico P mediciones s3
      let s5 := verificarUmbrales P mediciones.head? s4
      (s5, none)

/-- The part of `cargarDatosReales` that runs once the outcome of the request
is known, with its `catch` and `finally`: the resulting state and the error
that leaves the function, if any. -/
def cargarDatosReales_completar (P : Plataforma) (r : Respuesta) (s : Estado) :
    Estado × Option String :=
  let t := cuerpoTrasRespuesta P r s
  let s1 : Estado :=
    match t.2 with
    | some error => { t.1 with consola := t.1.consola ++ [error] }
    | none => t.1
  ({ s1 with loadingHidden := true }, none)

/-! ## Runs -/

/-- What can happen to the page between two observations. -/
inductive Evento where
  /-- A call of `mostrarDashboard`. -/
  | mostrarDashboard
  /-- A call of `logout`. -/
  | logout
  /-- The login handler stores a token. -/
  | guardarToken (t : String)
  /-- The user edits the filter inputs. -/
  | editarFiltros (limite inicio fin : String)
  /-- The user edits the threshold inputs. -/
  | editarUmbrales (temp hum : String)
  /-- A 5-second interval elapses. -/
  | tic
  /-- An outstanding request completes. The event is accepted in every state;
  the runs in which each completion answers an earlier request are among
  them. -/
  | completar (r : Respuesta)

/-- Effect of one event. -/
def paso (P : Plataforma) (s : Estado) : Evento → Estado
  | .mostrarDashboard => mostrarDashboard s
  | .logout => logout s
  | .guardarToken t => { s with token := some t }
  | .editarFiltros limite inicio fin =>
    { s with dataLimit := limite, dateStart := inicio, dateEnd := fin }
  | .editarUmbrales t h => { s with limitTemp := t, limitHum := h }
  | .tic => pasarIntervalo s
  | .completar r => (cargarDatosReales_completar P r s).1

/-- Effect of a sequence of events. -/
def ejecutar (P : Plataforma) (es : List Evento) (s : Estado) : Estado :=
  es.foldl (paso P) s

/-- The state right after the script is loaded: the three module variables
have their initialisers and no timer has been armed. The stored token and the
DOM are whatever the page provides. -/
def EsInicial (s : Estado) : Prop :=
  s.intervaloDeActualizacion = none ∧ s.timers = [] ∧
  s.miGrafico = none ∧ s.datosActuales = []

/-- The live timers are exactly the one named by the handle, which is
positive when present. -/
def UnSoloTimer (s : Estado) : Prop :=
  s.timers = s.intervaloDeActualizacion.toList ∧ s.intervaloDeActualizacion ≠ some 0

/-! ## A concrete platform

Used where a statement is evaluated on explicit inputs. -/

/-- Value of a run of decimal digits. -/
def valorDigitos (ds : List Char) : Nat :=
  ds.foldl (fun acc c => 10 * acc + (c.toNat - 48)) 0

/-- Exponent part of a decimal literal: `e` or `E`, an optional sign and at
least one digit; zero when the rest of the text is not of that form. -/
def exponenteDe : List Char → Int
  | c :: r =>
    if c = 'e' ∨ c = 'E' then
      match r with
      | '-' :: r1 =>
        if (r1.takeWhile Char.isDigit).isEmpty then 0
        else - (valorDigitos (r1.takeWhile Char.isDigit) : Int)
      | '+' :: r1 => (valorDigitos (r1.takeWhile Char.isDigit) : Int)
      | _ => (valorDigitos (r.takeWhile Char.isDigit) : Int)
    else 0
  | [] => 0

/-- Magnitude of the longest prefix that is an unsigned decimal literal. -/
def magnitudDe (cs : List Char) : JSNum :=
  if "Infinity".data.isPrefixOf cs then .posInf else
  let ent := cs.takeWhile Char.isDigit
  let r1 := cs.dropWhile Char.isDigit
  let frac :=
    match r1 with
    | '.' :: r => r.takeWhile Char.isDigit
    | _ => []
  let r2 :=
    match r1 with
    | '.' :: r => r.dropWhile Char.isDigit
    | _ => r1
  if ent.isEmpty && frac.isEmpty then .nan else
  .fin (((valorDigitos ent : ℚ) + (valorDigitos frac : ℚ) / 10 ^ frac.length) *
        10 ^ exponenteDe r2)

/-- Sign change on numbers. -/
def JSNum.neg : JSNum → JSNum
  | .nan => .nan
  | .fin q => .fin (-q)
  | .posInf => .negInf
  | .negInf => .posInf

/-- The global `parseFloat` on decimal text: leading white space is skipped
and the longest prefix that is a decimal literal is read; `NaN` when there is
none. The literal's exact value is returned (no rounding to a double). -/
def parseFloatDecimal (str : String) : JSNum :=
  match str.data.dropWhile Char.isWhitespace with
  | '-' :: r => (magnitudDe r).neg
  | '+' :: r => magnitudDe r
  | cs => magnitudDe cs

/-- Digits of the fractional part `r / d`, at most `n` of them. -/
def digitosFraccion (d : Nat) : Nat → Nat → List Nat
  | 0, _ => []
  | n + 1, r => if r = 0 then [] else (10 * r / d) :: digitosFraccion d n (10 * r % d)

/-- Decimal text of a number: integers without a point, other values with
their fractional digits (17 at most). -/
def numToStringDecimal : JSNum → String
  | .nan => "NaN"
  | .posInf => "Infinity"
  | .negInf => "-Infinity"
  | .fin q =>
    let ent := q.num.natAbs / q.den
    let fr := digitosFraccion q.den 17 (q.num.natAbs % q.den)
    (if q < 0 then "-" else "") ++ toString ent ++
    (if fr.isEmpty then "" else "." ++ String.join (fr.map toString))

/-- A platform with decimal parsing and printing, and a locale that prints a
date as the text it was built from. -/
def plataformaDecimal : Plataforma where
  parseFloat := parseFloatDecimal
  parseFloat_vacio := by decide
  numToString := numToStringDecimal
  toLocaleString := fun x => x
  toLocaleTimeString := fun x => x

/-- A page just loaded, without a stored token: login screen shown, cards and
table blank, filter on the last 20 records, no thresholds typed. -/
def paginaCargada : Estado where
  intervaloDeActualizacion := none
  miGrafico := none
  datosActuales := []
  token := none
  timers := []
  timerSeq := 0
  graficoSeq := 0
  loginHidden := false
  dashboardHidden := true
  loadingHidden := false
  username := ""
  password := ""
  temp := "-- °C"
  hum := "-- %"
  bat := "-- %"
  tableBody := ""
  dataLimit := "20"
  dateStart := ""
  dateEnd := ""
  limitTemp := ""
  limitHum := ""
  hayCanvas := true
  chartBodyWidth := "100%"
  alertas := ""
  alertasHidden := true
  consola := []
  peticiones := []
  invocaciones := 0

/-- Three records, newest first. -/
def m3 : Medicion :=
  { fecha := "2025-01-01T10:10:00", device_id := "d1", temperatura := 25, humedad := 60, bateria := 80 }

def m2 : Medicion :=
  { fecha := "2025-01-01T10:05:00", device_id := "d1", temperatura := 24, humedad := 61, bateria := 81 }

def m1 : Medicion :=
  { fecha := "2025-01-01T10:00:00", device_id := "d1", temperatura := 23, humedad := 62, bateria := 82 }

/-- The record used to exercise the alert thresholds: 5 °C and 40 %. -/
def lecturaFria : Medicion :=
  { fecha := "2025-01-01T10:00:00", device_id := "d1", temperatura := 5, humedad := 40, bateria := 80 }

/-- The record used to exercise the default threshold: 1500 °C and 40 %. -/
def lecturaExtrema : Medicion :=
  { fecha := "2025-01-01T10:00:00", device_id := "d1", temperatura := 1500, humedad := 40, bateria := 80 }

/-- Outcomes of a poll cycle that count as a transient failure: a rejected
fetch, a response that is not OK with a status other than 401, or a rejected
`response.json()`. -/
def esTransitoria : Respuesta → Bool
  | .rechazada _ => true
  | .noOk status => decide (status ≠ 401)
  | .jsonInvalido _ => true
  | .ok _ => false

/-! ## The timer invariant -/

theorem logout_intervalo (s : Estado) (hz : s.intervaloDeActualizacion ≠ some 0) :
    (logout s).intervaloDeActualizacion = none := by
  unfold logout
  cases hi : s.intervaloDeActualizacion with
  | none => simp [hi]
  | some n =>
    have hn : n ≠ 0 := fun h => hz (by rw [hi, h])
    simp [hn]

theorem logout_timers (s : Estado) (h : UnSoloTimer s) : (logout s).timers = [] := by
  obtain ⟨ht, hz⟩ := h
  unfold logout
  cases hi : s.intervaloDeActualizacion with
  | none => simpa [hi] using ht
  | some n =>
    have hn : n ≠ 0 := fun h => hz (by rw [hi, h])
    simp [hn, clearInterval, ht, hi]

theorem logout_unSolo (s : Estado) (h : UnSoloTimer s) : UnSoloTimer (logout s) := by
  have h1 := logout_intervalo s h.2
  have h2 := logout_timers s h
  simp [UnSoloTimer, h1, h2]

theorem solicitar_unSolo (s : Estado) (h : UnSoloTimer s) :
    UnSoloTimer (cargarDatosReales_solicitar s) := by
  have h0 : UnSoloTimer { s with invocaciones := s.invocaciones + 1 } := h
  unfold cargarDatosReales_solicitar
  cases ht : s.token with
  | none => simpa [ht] using logout_unSolo _ h0
  | some tok =>
    by_cases hk : strTruthy tok = true
    · simpa [ht, hk, UnSoloTimer] using h
    · simpa [ht, hk] using logout_unSolo _ h0

theorem mostrarDashboard_timers (s : Estado) (h : UnSoloTimer s) :
    ∃ n, (mostrarDashboard s).timers = [n + 1] ∧
      (mostrarDashboard s).intervaloDeActualizacion = some (n + 1) := by
  have h1 : UnSoloTimer { s with loginHidden := true, dashboardHidden := false } := h
  have h2 := solicitar_unSolo _ h1
  unfold mostrarDashboard
  simp only []
  generalize cargarDatosReales_solicitar
    { s with loginHidden := true, dashboardHidden := false } = s2 at h2 ⊢
  obtain ⟨ht, hz⟩ := h2
  cases hi : s2.intervaloDeActualizacion with
  | none =>
    refine ⟨s2.timerSeq, ?_, ?_⟩
    · simp [setInterval, ht, hi]
    · simp [setInterval]
  | some n =>
    have hn : n ≠ 0 := fun h => hz (by rw [hi, h])
    refine ⟨s2.timerSeq, ?_, ?_⟩
    · simp [setInterval, clearInterval, ht, hi, hn]
    · simp [setInterval, hn, clearInterval]

theorem mostrarDashboard_unSolo (s : Estado) (h : UnSoloTimer s) :
    UnSoloTimer (mostrarDashboard s) := by
  obtain ⟨n, h1, h2⟩ := mostrarDashboard_timers s h
  simp [UnSoloTimer, h1, h2]

theorem alDispararTimer_unSolo (s : Estado) (h : UnSoloTimer s) :
    UnSoloTimer (alDispararTimer s) :=
  solicitar_unSolo _ h

theorem pasarIntervalo_unSolo (s : Estado) (h : UnSoloTimer s) :
    UnSoloTimer (pasarIntervalo s) := by
  unfold pasarIntervalo
  generalize s.timers = ts
  induction ts generalizing s with
  | nil => simpa using h
  | cons t ts ih =>
    simp only [List.foldl_cons]
    apply ih
    split
    · exact alDispararTimer_unSolo s h
    · exact h

/-! ## What each view writes -/

theorem actualizarTarjetas_forma (P : Plataforma) (o : Option Medicion) (s : Estado) :
    ∃ a b c, actualizarTarjetas P o s = { s with temp := a, hum := b, bat := c } := by
  cases o with
  | none => exact ⟨_, _, _, rfl⟩
  | some u => exact ⟨_, _, _, rfl⟩

theorem actualizarGrafico_forma (P : Plataforma) (datos : List Medicion) (s : Estado) :
    ∃ w g q, actualizarGrafico P datos s =
      { s with chartBodyWidth := w, miGrafico := g, graficoSeq := q } := by
  unfold actualizarGrafico
  by_cases hc : s.hayCanvas = true
  · have hc1 : ¬ ((!s.hayCanvas) = true) := by simp [hc]
    rw [if_neg hc1]
    cases hg : s.miGrafico with
    | none =>
      simp only [hg]
      exact ⟨_, _, _, rfl⟩
    | some g =>
      simp only [hg]
      exact ⟨_, _, s.graficoSeq, rfl⟩
  · have hc1 : (!s.hayCanvas) = true := by simpa using hc
    rw [if_pos hc1]
    exact ⟨s.chartBodyWidth, s.miGrafico, s.graficoSeq, rfl⟩

/-- The chart left by `actualizarGrafico` when the canvas exists. -/
theorem actualizarGrafico_miGrafico (P : Plataforma) (datos : List Medicion) (s : Estado)
    (hc : s.hayCanvas = true) :
    (actualizarGrafico P datos s).miGrafico = some
      { id := (match s.miGrafico with | some g0 => g0.id | none => s.graficoSeq + 1)
        labels := datos.reverse.map (fun d => P.toLocaleTimeString (d.fecha ++ "Z"))
        temperaturas := datos.reverse.map (fun d => d.temperatura)
        humedades := datos.reverse.map (fun d => d.humedad)
        resizes := (match s.miGrafico with | some g0 => g0.resizes + 1 | none => 0)
        updates := (match s.miGrafico with | some g0 => g0.updates + 1 | none => 0) } := by
  unfold actualizarGrafico
  have hc1 : ¬ ((!s.hayCanvas) = true) := by simp [hc]
  rw [if_neg hc1]
  cases hg : s.miGrafico with
  | none => simp only [hg]
  | some g => simp only [hg]

theorem verificarUmbrales_forma (P : Plataforma) (o : Option Medicion) (s : Estado) :
    ∃ a h, verificarUmbrales P o s = { s with alertas := a, alertasHidden := h } := by
  cases o with
  | none => exact ⟨s.alertas, s.alertasHidden, rfl⟩
  | some u =>
    simp only [verificarUmbrales]
    split
    · exact ⟨_, _, rfl⟩
    · exact ⟨_, _, rfl⟩

/-- On a non-empty array the completion writes the batch and the views and
nothing else. -/
theorem cuerpo_ok_forma (P : Plataforma) (ms : List Medicion) (s : Estado)
    (hne : ms.length ≠ 0) :
    ∃ tb a b c w g q al ah, (cuerpoTrasRespuesta P (.ok ms) s) =
      ({ s with datosActuales := ms, tableBody := tb, temp := a, hum := b, bat := c,
                chartBodyWidth := w, miGrafico := g, graficoSeq := q,
                alertas := al, alertasHidden := ah }, none) := by
  simp only [cuerpoTrasRespuesta, hne, if_false]
  obtain ⟨a, b, c, h3⟩ := actualizarTarjetas_forma P ms.head?
    (renderizarTabla P ms { s with datosActuales := ms })
  obtain ⟨w, g, q, h4⟩ := actualizarGrafico_forma P ms
    (actualizarTarjetas P ms.head? (renderizarTabla P ms { s with datosActuales := ms }))
  obtain ⟨al, ah, h5⟩ := verificarUmbrales_forma P ms.head?
    (actualizarGrafico P ms
      (actualizarTarjetas P ms.head? (renderizarTabla P ms { s with datosActuales := ms })))
  rw [h5, h4, h3]
  exact ⟨_, _, _, _, _, _, _, _, _, rfl⟩

theorem cuerpo_unSolo (P : Plataforma) (r : Respuesta) (s : Estado) (h : UnSoloTimer s) :
    UnSoloTimer (cuerpoTrasRespuesta P r s).1 := by
  cases r with
  | rechazada m => exact h
  | jsonInvalido m => exact h
  | noOk st =>
    simp only [cuerpoTrasRespuesta]
    split
    · exact logout_unSolo s h
    · exact h
  | ok ms =>
    by_cases hne : ms.length = 0
    · simp only [cuerpoTrasRespuesta, hne, if_true]
      cases hg : s.miGrafico <;> simpa [UnSoloTimer, hg] using h
    · obtain ⟨tb, a, b, c, w, g, q, al, ah, hf⟩ := cuerpo_ok_forma P ms s hne
      rw [hf]
      exact h

theorem completar_unSolo (P : Plataforma) (r : Respuesta) (s : Estado) (h : UnSoloTimer s) :
    UnSoloTimer (cargarDatosReales_completar P r s).1 := by
  have h1 := cuerpo_unSolo P r s h
  unfold cargarDatosReales_completar
  simp only []
  cases he : (cuerpoTrasRespuesta P r s).2 with
  | none => exact h1
  | some e => exact h1

theorem paso_unSolo (P : Plataforma) (s : Estado) (e : Evento) (h : UnSoloTimer s) :
    UnSoloTimer (paso P s e) := by
  cases e with
  | mostrarDashboard => exact mostrarDashboard_unSolo s h
  | logout => exact logout_unSolo s h
  | guardarToken t => exact h
  | editarFiltros a b c => exact h
  | editarUmbrales a b => exact h
  | tic => exact pasarIntervalo_unSolo s h
  | completar r => exact completar_unSolo P r s h

theorem ejecutar_unSolo (P : Plataforma) (es : List Evento) (s : Estado)
    (h : UnSoloTimer s) : UnSoloTimer (ejecutar P es s) := by
  unfold ejecutar
  induction es generalizing s with
  | nil => exact h
  | cons e es ih => exact ih _ (paso_unSolo P s e h)

theorem inicial_unSolo (s : Estado) (h : EsInicial s) : UnSoloTimer s := by
  obtain ⟨h1, h2, _, _⟩ := h
  simp [UnSoloTimer, h1, h2]

theorem ejecutar_append (P : Plataforma) (es fs : List Evento) (s : Estado) :
    ejecutar P (es ++ fs) s = ejecutar P fs (ejecutar P es s) := by
  simp [ejecutar, List.foldl_append]

theorem transcurrir_sin_timers (n : Nat) (s : Estado) (h : s.timers = []) :
    transcurrir n s = s := by
  induction n with
  | zero => rfl
  | succ n ih =>
    have hp : pasarIntervalo s = s := by simp [pasarIntervalo, h]
    simp [transcurrir, hp, ih]

/-! ## Claims -/

set_option maxRecDepth 8000

/-- C1. From the state of a freshly loaded page, after any finite sequence of
events (calls of `mostrarDashboard` and `logout`, possibly interleaved with
token storage, input edits, timer ticks and request completions) there is at
most one live timer, and the live timers are exactly the one named by
`intervaloDeActualizacion` (none when it is null). Two further calls of
`mostrarDashboard` in a row leave exactly one live timer. -/
theorem C1_un_solo_timer_activo (P : Plataforma) (s0 : Estado) (h0 : EsInicial s0)
    (es : List Evento) :
    (ejecutar P es s0).timers.length ≤ 1 ∧
    (ejecutar P es s0).timers = (ejecutar P es s0).intervaloDeActualizacion.toList ∧
    (ejecutar P (es ++ [.mostrarDashboard, .mostrarDashboard]) s0).timers.length = 1 := by
  have hinv := ejecutar_unSolo P es s0 (inicial_unSolo s0 h0)
  refine ⟨?_, hinv.1, ?_⟩
  · rw [hinv.1]
    cases (ejecutar P es s0).intervaloDeActualizacion <;> simp
  · rw [ejecutar_append]
    have h1 := mostrarDashboard_unSolo _ hinv
    obtain ⟨n, h2, _⟩ := mostrarDashboard_timers _ h1
    simpa [ejecutar, paso] using congrArg List.length h2

/-- C1 on a concrete run: log in, show the dashboard three times with a
logout in between. -/
theorem C1_un_solo_timer_activo_witness :
    EsInicial paginaCargada ∧
    (ejecutar plataformaDecimal
      [.guardarToken "tok", .mostrarDashboard, .mostrarDashboard, .logout,
       .guardarToken "tok", .mostrarDashboard] paginaCargada).timers = [3] ∧
    (ejecutar plataformaDecimal
      ([.guardarToken "tok", .mostrarDashboard, .mostrarDashboard, .logout,
       .guardarToken "tok", .mostrarDashboard] ++ [.mostrarDashboard, .mostrarDashboard])
      paginaCargada).timers.length = 1 :=
  ⟨⟨rfl, rfl, rfl, rfl⟩, by decide,
   (C1_un_solo_timer_activo plataformaDecimal paginaCargada ⟨rfl, rfl, rfl, rfl⟩
      [.guardarToken "tok", .mostrarDashboard, .mostrarDashboard, .logout,
       .guardarToken "tok", .mostrarDashboard]).2.2⟩

/-- C2. In every state reached from a freshly loaded page, once `logout`
returns the handle is null and no timer is live, and any number of 5-second
intervals that then elapse change nothing: no call of `cargarDatosReales` and
no fetch. -/
theorem C2_logout_detiene_el_sondeo (P : Plataforma) (s0 : Estado) (h0 : EsInicial s0)
    (es : List Evento) (n : Nat) :
    (logout (ejecutar P es s0)).intervaloDeActualizacion = none ∧
    (logout (ejecutar P es s0)).timers = [] ∧
    (transcurrir n (logout (ejecutar P es s0))).invocaciones =
      (logout (ejecutar P es s0)).invocaciones ∧
    (transcurrir n (logout (ejecutar P es s0))).peticiones =
      (logout (ejecutar P es s0)).peticiones := by
  have hinv := ejecutar_unSolo P es s0 (inicial_unSolo s0 h0)
  have ht := logout_timers _ hinv
  rw [transcurrir_sin_timers n _ ht]
  exact ⟨logout_intervalo _ hinv.2, ht, rfl, rfl⟩

/-- C2 on a concrete run: a polling dashboard is logged out and a minute
passes. -/
theorem C2_logout_detiene_el_sondeo_witness :
    EsInicial paginaCargada ∧
    (ejecutar plataformaDecimal [.guardarToken "tok", .mostrarDashboard, .tic] paginaCargada).invocaciones = 2 ∧
    (transcurrir 12 (logout (ejecutar plataformaDecimal
      [.guardarToken "tok", .mostrarDashboard, .tic] paginaCargada))).invocaciones = 2 :=
  ⟨⟨rfl, rfl, rfl, rfl⟩, by decide,
   ((C2_logout_detiene_el_sondeo plataformaDecimal paginaCargada ⟨rfl, rfl, rfl, rfl⟩
      [.guardarToken "tok", .mostrarDashboard, .tic] 12).2.2.1).trans (by decide)⟩

/-- After a cycle that ends with status 401 the handle is null, the token
is gone, the login screen is shown, the batch is the one held before, and no
error leaves the function. -/
theorem completar_401 (P : Plataforma) (s : Estado)
    (hz : s.intervaloDeActualizacion ≠ some 0) :
    (cargarDatosReales_completar P (.noOk 401) s).1.intervaloDeActualizacion = none ∧
    (cargarDatosReales_completar P (.noOk 401) s).1.token = none ∧
    (cargarDatosReales_completar P (.noOk 401) s).1.dashboardHidden = true ∧
    (cargarDatosReales_completar P (.noOk 401) s).1.loginHidden = false ∧
    (cargarDatosReales_completar P (.noOk 401) s).1.datosActuales = s.datosActuales ∧
    (cargarDatosReales_completar P (.noOk 401) s).2 = none := by
  have hi := logout_intervalo s hz
  have hd : (logout s).datosActuales = s.datosActuales := by
    unfold logout
    cases h : s.intervaloDeActualizacion with
    | none => rfl
    | some n => by_cases hn : n = 0 <;> simp [hn, clearInterval]
  simp only [cargarDatosReales_completar, cuerpoTrasRespuesta, if_true]
  refine ⟨hi, ?_, ?_, ?_, hd, trivial⟩ <;> rfl

/-- C3, as amended. In every state reached from a freshly loaded page, a poll
cycle whose response has status 401 leaves the session logged out: the
recurring timer is cancelled (handle null, no live timer), the stored token
is removed and the login screen is shown; the batch `datosActuales` is left
as it was. -/
theorem C3_ciclo_401_cierra_sesion (P : Plataforma) (s0 : Estado) (h0 : EsInicial s0)
    (es : List Evento) :
    (ejecutar P (es ++ [.completar (.noOk 401)]) s0).intervaloDeActualizacion = none ∧
    (ejecutar P (es ++ [.completar (.noOk 401)]) s0).timers = [] ∧
    (ejecutar P (es ++ [.completar (.noOk 401)]) s0).token = none ∧
    (ejecutar P (es ++ [.completar (.noOk 401)]) s0).dashboardHidden = true ∧
    (ejecutar P (es ++ [.completar (.noOk 401)]) s0).loginHidden = false ∧
    (ejecutar P (es ++ [.completar (.noOk 401)]) s0).datosActuales =
      (ejecutar P es s0).datosActuales := by
  have hinv := ejecutar_unSolo P es s0 (inicial_unSolo s0 h0)
  have hinv2 := completar_unSolo P (.noOk 401) _ hinv
  obtain ⟨h1, h2, h3, h4, h5, _⟩ := completar_401 P (ejecutar P es s0) hinv.2
  have he : ejecutar P (es ++ [.completar (.noOk 401)]) s0 =
      (cargarDatosReales_completar P (.noOk 401) (ejecutar P es s0)).1 := by
    rw [ejecutar_append]
    rfl
  rw [he]
  refine ⟨h1, ?_, h2, h3, h4, h5⟩
  have ht := hinv2.1
  rw [h1] at ht
  exact ht

/-- C3 on a concrete run: a dashboard that shows three records receives a
401. -/
theorem C3_ciclo_401_cierra_sesion_witness :
    EsInicial paginaCargada ∧
    (ejecutar plataformaDecimal
      [.guardarToken "tok", .mostrarDashboard, .completar (.ok [m3, m2, m1]), .tic]
      paginaCargada).intervaloDeActualizacion = some 1 ∧
    (ejecutar plataformaDecimal
      ([.guardarToken "tok", .mostrarDashboard, .completar (.ok [m3, m2, m1]), .tic] ++
        [.completar (.noOk 401)]) paginaCargada).timers = [] :=
  ⟨⟨rfl, rfl, rfl, rfl⟩, by decide,
   (C3_ciclo_401_cierra_sesion plataformaDecimal paginaCargada ⟨rfl, rfl, rfl, rfl⟩
      [.guardarToken "tok", .mostrarDashboard, .completar (.ok [m3, m2, m1]), .tic]).2.1⟩

/-- C3 as stated fails: a logged-in dashboard holding three records receives
a 401; the timer is cancelled and the token removed, but `datosActuales`
still holds the three records. -/
theorem C3_datosActuales_no_se_vacia :
    (ejecutar plataformaDecimal
      [.guardarToken "tok", .mostrarDashboard, .completar (.ok [m3, m2, m1]), .tic]
      paginaCargada).token = some "tok" ∧
    (ejecutar plataformaDecimal
      [.guardarToken "tok", .mostrarDashboard, .completar (.ok [m3, m2, m1]), .tic,
       .completar (.noOk 401)] paginaCargada).intervaloDeActualizacion = none ∧
    (ejecutar plataformaDecimal
      [.guardarToken "tok", .mostrarDashboard, .completar (.ok [m3, m2, m1]), .tic,
       .completar (.noOk 401)] paginaCargada).token = none ∧
    (ejecutar plataformaDecimal
      [.guardarToken "tok", .mostrarDashboard, .completar (.ok [m3, m2, m1]), .tic,
       .completar (.noOk 401)] paginaCargada).datosActuales = [m3, m2, m1] ∧
    (ejecutar plataformaDecimal
      [.guardarToken "tok", .mostrarDashboard, .completar (.ok [m3, m2, m1]), .tic,
       .completar (.noOk 401)] paginaCargada).datosActuales ≠ [] := by
  decide

/-- On an empty array the completion empties the batch, writes the no-data
row, empties the labels and both series of an existing chart while keeping
the object, creates no chart when there is none, and leaves the three cards
and the alert box as they were. -/
theorem completar_vacio (P : Plataforma) (s : Estado) :
    (cargarDatosReales_completar P (.ok []) s).1.datosActuales = [] ∧
    (cargarDatosReales_completar P (.ok []) s).1.tableBody = filaSinDatos ∧
    (cargarDatosReales_completar P (.ok []) s).1.miGrafico =
      s.miGrafico.map (fun g =>
        { g with labels := [], temperaturas := [], humedades := [], updates := g.updates + 1 }) ∧
    (cargarDatosReales_completar P (.ok []) s).1.temp = s.temp ∧
    (cargarDatosReales_completar P (.ok []) s).1.hum = s.hum ∧
    (cargarDatosReales_completar P (.ok []) s).1.bat = s.bat ∧
    (cargarDatosReales_completar P (.ok []) s).1.alertas = s.alertas ∧
    (cargarDatosReales_completar P (.ok []) s).1.alertasHidden = s.alertasHidden := by
  cases hg : s.miGrafico <;>
    simp [cargarDatosReales_completar, cuerpoTrasRespuesta, hg]

/-- C4, the code at the failing input. A dashboard whose cards show the
record `m3` (25 °C, 60 %, 80 %) receives an empty array: the table shows the
no-data row and the chart is emptied in place, but the cards still show
25 °C, 60 % and 80 % instead of the placeholders. -/
theorem C4_tarjetas_conservan_el_lote_anterior :
    (ejecutar plataformaDecimal
      [.guardarToken "tok", .mostrarDashboard, .completar (.ok [m3, m2, m1]), .tic]
      paginaCargada).temp = "25 °C" ∧
    (ejecutar plataformaDecimal
      [.guardarToken "tok", .mostrarDashboard, .completar (.ok [m3, m2, m1]), .tic,
       .completar (.ok [])] paginaCargada).tableBody = filaSinDatos ∧
    (ejecutar plataformaDecimal
      [.guardarToken "tok", .mostrarDashboard, .completar (.ok [m3, m2, m1]), .tic,
       .completar (.ok [])] paginaCargada).miGrafico =
      some { id := 1, labels := [], temperaturas := [], humedades := [],
             resizes := 0, updates := 1 } ∧
    (ejecutar plataformaDecimal
      [.guardarToken "tok", .mostrarDashboard, .completar (.ok [m3, m2, m1]), .tic,
       .completar (.ok [])] paginaCargada).temp = "25 °C" ∧
    (ejecutar plataformaDecimal
      [.guardarToken "tok", .mostrarDashboard, .completar (.ok [m3, m2, m1]), .tic,
       .completar (.ok [])] paginaCargada).hum = "60 %" ∧
    (ejecutar plataformaDecimal
      [.guardarToken "tok", .mostrarDashboard, .completar (.ok [m3, m2, m1]), .tic,
       .completar (.ok [])] paginaCargada).bat = "80 %" ∧
    (actualizarTarjetas plataformaDecimal none paginaCargada).temp = "-- °C" := by
  decide

/-- C5. When a token is stored, `cargarDatosReales` issues exactly one fetch,
and its URL is `API_URL + "/mediciones?start_date=" + fechaInicio +
"&end_date=" + fechaFin` when both dates are non-empty and
`API_URL + "/mediciones?limit=" + limite` otherwise, so the query carries one
filter, the date range having precedence. -/
theorem C5_url_de_la_consulta (s : Estado) (tok limite fechaInicio fechaFin : String)
    (htok : s.token = some tok) (hne : tok ≠ "")
    (hl : s.dataLimit = limite) (hi : s.dateStart = fechaInicio) (hf : s.dateEnd = fechaFin) :
    (cargarDatosReales_solicitar s).peticiones = s.peticiones ++
      [{ url := urlFinal limite fechaInicio fechaFin, authorization := "Bearer " ++ tok }] ∧
    (fechaInicio ≠ "" ∧ fechaFin ≠ "" →
      urlFinal limite fechaInicio fechaFin =
        API_URL ++ "/mediciones?start_date=" ++ fechaInicio ++ "&end_date=" ++ fechaFin) ∧
    (¬ (fechaInicio ≠ "" ∧ fechaFin ≠ "") →
      urlFinal limite fechaInicio fechaFin = API_URL ++ "/mediciones?limit=" ++ limite) := by
  refine ⟨?_, ?_, ?_⟩
  · subst hl hi hf
    simp [cargarDatosReales_solicitar, htok, strTruthy, hne]
  · intro h
    have h1 : (strTruthy fechaInicio && strTruthy fechaFin) = true := by
      simp [strTruthy, h.1, h.2]
    have hc : API_URL ++ "/mediciones?start_date=" =
        API_URL ++ ENDPOINTS_MEDICIONES ++ "?start_date=" := by decide
    simp only [urlFinal, h1, if_true]
    rw [hc]
    simp only [String.append_assoc]
  · intro h
    have h1 : ¬ ((strTruthy fechaInicio && strTruthy fechaFin) = true) := by
      simpa [strTruthy] using h
    have hc : API_URL ++ "/mediciones?limit=" =
        API_URL ++ ENDPOINTS_MEDICIONES ++ "?limit=" := by decide
    unfold urlFinal
    rw [if_neg h1, hc]
    simp only [String.append_assoc]

/-- C5 on concrete inputs: a limit of 20 together with a date range sends the
date range. -/
theorem C5_url_de_la_consulta_witness :
    urlFinal "20" "2025-01-01" "2025-01-02" =
      "https://dimoca-backend.onrender.com/mediciones?start_date=2025-01-01&end_date=2025-01-02" :=
  ((C5_url_de_la_consulta
      { paginaCargada with token := some "tok", dateStart := "2025-01-01",
                           dateEnd := "2025-01-02" }
      "tok" "20" "2025-01-01" "2025-01-02" rfl (by decide) rfl rfl rfl).2.1
    ⟨by decide, by decide⟩).trans (by decide)

/-- C6. When the canvas exists, `actualizarGrafico` leaves a chart, created
on this call or updated in place with its identity kept, whose labels,
temperature series and humidity series are the corresponding field mapped
over the reverse of `datos`: each has the length of `datos`, the point at
index `i` comes from `datos[n-1-i]`, and the stored batch is not touched. -/
theorem C6_grafico_en_orden_cronologico (P : Plataforma) (datos : List Medicion)
    (s : Estado) (hc : s.hayCanvas = true) :
    ∃ g, (actualizarGrafico P datos s).miGrafico = some g ∧
      g.labels = datos.reverse.map (fun d => P.toLocaleTimeString (d.fecha ++ "Z")) ∧
      g.temperaturas = datos.reverse.map (fun d => d.temperatura) ∧
      g.humedades = datos.reverse.map (fun d => d.humedad) ∧
      g.labels.length = datos.length ∧
      g.temperaturas.length = datos.length ∧
      g.humedades.length = datos.length ∧
      (∀ i, i < datos.length →
        g.labels[i]? = (datos[datos.length - 1 - i]?).map
          (fun d => P.toLocaleTimeString (d.fecha ++ "Z")) ∧
        g.temperaturas[i]? = (datos[datos.length - 1 - i]?).map (fun d => d.temperatura) ∧
        g.humedades[i]? = (datos[datos.length - 1 - i]?).map (fun d => d.humedad)) ∧
      (∀ g0, s.miGrafico = some g0 → g.id = g0.id) ∧
      (actualizarGrafico P datos s).datosActuales = s.datosActuales := by
  have hidx : ∀ (β : Type) (f : Medicion → β) (i : Nat), i < datos.length →
      (datos.reverse.map f)[i]? = (datos[datos.length - 1 - i]?).map f := by
    intro β f i hi
    rw [List.getElem?_map, List.getElem?_reverse hi]
  have hd : (actualizarGrafico P datos s).datosActuales = s.datosActuales := by
    obtain ⟨w, g, q, hf⟩ := actualizarGrafico_forma P datos s
    rw [hf]
  refine ⟨{ id := (match s.miGrafico with | some g0 => g0.id | none => s.graficoSeq + 1)
            labels := datos.reverse.map (fun d => P.toLocaleTimeString (d.fecha ++ "Z"))
            temperaturas := datos.reverse.map (fun d => d.temperatura)
            humedades := datos.reverse.map (fun d => d.humedad)
            resizes := (match s.miGrafico with | some g0 => g0.resizes + 1 | none => 0)
            updates := (match s.miGrafico with | some g0 => g0.updates + 1 | none => 0) },
          actualizarGrafico_miGrafico P datos s hc, rfl, rfl, rfl,
          by simp, by simp, by simp, ?_, ?_, hd⟩
  · intro i hi
    exact ⟨hidx _ _ i hi, hidx _ _ i hi, hidx _ _ i hi⟩
  · intro g0 hg
    simp [hg]

/-- C6 on the batch `[m3, m2, m1]`: the plotted temperatures are those of
`m1`, `m2`, `m3` in that order. -/
theorem C6_grafico_en_orden_cronologico_witness :
    ∃ g, (actualizarGrafico plataformaDecimal [m3, m2, m1] paginaCargada).miGrafico = some g ∧
      g.temperaturas = [m1.temperatura, m2.temperatura, m3.temperatura] ∧
      g.labels = ["2025-01-01T10:00:00Z", "2025-01-01T10:05:00Z", "2025-01-01T10:10:00Z"] := by
  obtain ⟨g, h1, h2, h3, _⟩ :=
    C6_grafico_en_orden_cronologico plataformaDecimal [m3, m2, m1] paginaCargada rfl
  exact ⟨g, h1, h3.trans (by decide), h2.trans (by decide)⟩

/-- The array built by `verificarUmbrales`: the temperature message when the
temperature exceeds `limiteTemp`, followed by the humidity message when the
humidity exceeds `limiteHum`. -/
theorem mensajesUmbrales_eq (P : Plataforma) (u : Medicion) (s : Estado) :
    mensajesUmbrales P u s =
      (if JSNum.gt (.fin u.temperatura) (limiteTempDe P s) = true then
        [mensajeTemperatura P u (limiteTempDe P s)] else []) ++
      (if JSNum.gt (.fin u.humedad) (limiteHumDe P s) = true then
        [mensajeHumedad P u (limiteHumDe P s)] else []) := by
  unfold mensajesUmbrales
  by_cases h1 : JSNum.gt (.fin u.temperatura) (limiteTempDe P s) = true <;>
    by_cases h2 : JSNum.gt (.fin u.humedad) (limiteHumDe P s) = true <;>
    simp [h1, h2]

/-- With two thresholds that parse as non-zero finite numbers the two checks
are independent and exact: the temperature message is present exactly when
`temperatura > tempLimit` and the humidity message exactly when
`humedad > humLimit`. -/
theorem mensajesUmbrales_umbrales_no_nulos (P : Plataforma) (u : Medicion) (s : Estado)
    (tempLimit humLimit : ℚ)
    (ht : P.parseFloat s.limitTemp = .fin tempLimit) (hh : P.parseFloat s.limitHum = .fin humLimit)
    (ht0 : tempLimit ≠ 0) (hh0 : humLimit ≠ 0) :
    mensajesUmbrales P u s =
      (if tempLimit < u.temperatura then [mensajeTemperatura P u (.fin tempLimit)] else []) ++
      (if humLimit < u.humedad then [mensajeHumedad P u (.fin humLimit)] else []) := by
  have h1 : limiteTempDe P s = .fin tempLimit := by
    simp [limiteTempDe, ht, JSNum.orElse, JSNum.truthy, ht0]
  have h2 : limiteHumDe P s = .fin humLimit := by
    simp [limiteHumDe, hh, JSNum.orElse, JSNum.truthy, hh0]
  rw [mensajesUmbrales_eq, h1, h2]
  simp [JSNum.gt]

/-- C7, the code at the failing input. With the temperature threshold `0`
and the humidity threshold `50`, both numeric, a record at 5 °C and 40 %
exceeds the temperature threshold, yet no message is built: the threshold
that was read is 1000, not 0. -/
theorem C7_umbral_cero_se_ignora :
    plataformaDecimal.parseFloat "0" = .fin 0 ∧
    plataformaDecimal.parseFloat "50" = .fin 50 ∧
    (0 : ℚ) < lecturaFria.temperatura ∧
    limiteTempDe plataformaDecimal { paginaCargada with limitTemp := "0", limitHum := "50" } =
      .fin 1000 ∧
    mensajesUmbrales plataformaDecimal lecturaFria
      { paginaCargada with limitTemp := "0", limitHum := "50" } = [] := by
  with_unfolding_all decide

/-- C8, as amended. When a threshold input is empty or its text does not
parse as a number, `verificarUmbrales` uses the limit 1000 for that quantity:
the message for it is built exactly when the value exceeds 1000, the other
check being unaffected. -/
theorem C8_umbral_ausente_es_1000 (P : Plataforma) (u : Medicion) (s : Estado) :
    (s.limitTemp = "" ∨ P.parseFloat s.limitTemp = .nan →
      limiteTempDe P s = .fin 1000 ∧
      mensajesUmbrales P u s =
        (if 1000 < u.temperatura then [mensajeTemperatura P u (.fin 1000)] else []) ++
        (if JSNum.gt (.fin u.humedad) (limiteHumDe P s) = true then
          [mensajeHumedad P u (limiteHumDe P s)] else [])) ∧
    (s.limitHum = "" ∨ P.parseFloat s.limitHum = .nan →
      limiteHumDe P s = .fin 1000 ∧
      mensajesUmbrales P u s =
        (if JSNum.gt (.fin u.temperatura) (limiteTempDe P s) = true then
          [mensajeTemperatura P u (limiteTempDe P s)] else []) ++
        (if 1000 < u.humedad then [mensajeHumedad P u (.fin 1000)] else [])) := by
  constructor
  · intro h
    have hn : P.parseFloat s.limitTemp = .nan := by
      rcases h with h | h
      · rw [h]
        exact P.parseFloat_vacio
      · exact h
    have h1 : limiteTempDe P s = .fin 1000 := by
      simp [limiteTempDe, hn, JSNum.orElse, JSNum.truthy]
    refine ⟨h1, ?_⟩
    rw [mensajesUmbrales_eq, h1]
    simp [JSNum.gt]
  · intro h
    have hn : P.parseFloat s.limitHum = .nan := by
      rcases h with h | h
      · rw [h]
        exact P.parseFloat_vacio
      · exact h
    have h1 : limiteHumDe P s = .fin 1000 := by
      simp [limiteHumDe, hn, JSNum.orElse, JSNum.truthy]
    refine ⟨h1, ?_⟩
    rw [mensajesUmbrales_eq, h1]
    simp [JSNum.gt]

/-- C8 on concrete inputs: with both threshold inputs empty, a record at
5 °C and 40 % produces no message. -/
theorem C8_umbral_ausente_es_1000_witness :
    paginaCargada.limitTemp = "" ∧
    mensajesUmbrales plataformaDecimal lecturaFria paginaCargada = [] :=
  ⟨rfl,
   ((C8_umbral_ausente_es_1000 plataformaDecimal lecturaFria paginaCargada).1
      (Or.inl rfl)).2.trans (by with_unfolding_all decide)⟩

/-- C8 as stated fails: with the temperature threshold input empty, a record
at 1500 °C produces a temperature message. -/
theorem C8_umbral_ausente_dispara :
    paginaCargada.limitTemp = "" ∧
    plataformaDecimal.parseFloat "" = .nan ∧
    mensajesUmbrales plataformaDecimal lecturaExtrema paginaCargada =
      [mensajeTemperatura plataformaDecimal lecturaExtrema (.fin 1000)] ∧
    mensajesUmbrales plataformaDecimal lecturaExtrema paginaCargada ≠ [] ∧
    (verificarUmbrales plataformaDecimal (some lecturaExtrema) paginaCargada).alertasHidden =
      false := by
  with_unfolding_all decide

/-- C9. A poll cycle that ends in a transient failure leaves the batch, the
chart object with its labels and series, the table, the three cards, the
alert box, the timer handle with the live timers, and the stored token as
they were before the cycle, and no error leaves `cargarDatosReales`. -/
theorem C9_fallo_transitorio_no_toca_el_estado (P : Plataforma) (r : Respuesta) (s : Estado)
    (h : esTransitoria r = true) :
    (cargarDatosReales_completar P r s).1.datosActuales = s.datosActuales ∧
    (cargarDatosReales_completar P r s).1.miGrafico = s.miGrafico ∧
    (cargarDatosReales_completar P r s).1.tableBody = s.tableBody ∧
    (cargarDatosReales_completar P r s).1.temp = s.temp ∧
    (cargarDatosReales_completar P r s).1.hum = s.hum ∧
    (cargarDatosReales_completar P r s).1.bat = s.bat ∧
    (cargarDatosReales_completar P r s).1.alertas = s.alertas ∧
    (cargarDatosReales_completar P r s).1.alertasHidden = s.alertasHidden ∧
    (cargarDatosReales_completar P r s).1.intervaloDeActualizacion =
      s.intervaloDeActualizacion ∧
    (cargarDatosReales_completar P r s).1.timers = s.timers ∧
    (cargarDatosReales_completar P r s).1.token = s.token ∧
    (cargarDatosReales_completar P r s).2 = none := by
  cases r with
  | rechazada m => exact ⟨rfl, rfl, rfl, rfl, rfl, rfl, rfl, rfl, rfl, rfl, rfl, rfl⟩
  | jsonInvalido m => exact ⟨rfl, rfl, rfl, rfl, rfl, rfl, rfl, rfl, rfl, rfl, rfl, rfl⟩
  | noOk st =>
    have hst : st ≠ 401 := by simpa [esTransitoria] using h
    simp [cargarDatosReales_completar, cuerpoTrasRespuesta, hst]
  | ok ms => simp [esTransitoria] at h

/-- C9 on a concrete run: a dashboard that shows three records receives a
status 500. -/
theorem C9_fallo_transitorio_no_toca_el_estado_witness :
    (cargarDatosReales_completar plataformaDecimal (.noOk 500)
      (ejecutar plataformaDecimal
        [.guardarToken "tok", .mostrarDashboard, .completar (.ok [m3, m2, m1]), .tic]
        paginaCargada)).1.datosActuales = [m3, m2, m1] :=
  ((C9_fallo_transitorio_no_toca_el_estado plataformaDecimal (.noOk 500)
      (ejecutar plataformaDecimal
        [.guardarToken "tok", .mostrarDashboard, .completar (.ok [m3, m2, m1]), .tic]
        paginaCargada) (by decide)).1).trans (by decide)

/-- C10, as amended. Whatever the state in which the completion step of a
poll cycle runs, and so also when `logout` ran after the request was issued,
a successful non-empty response is applied: `datosActuales` becomes the
response, the table and the cards are rendered from it, the chart (when the
canvas exists) holds its points in reverse order, and the alert box is
recomputed from its first record. The completion does not arm a timer and
does not restore the token. -/
theorem C10_respuesta_tardia_se_aplica (P : Plataforma) (m : Medicion) (ms : List Medicion)
    (s : Estado) :
    (cargarDatosReales_completar P (.ok (m :: ms)) s).1.datosActuales = m :: ms ∧
    (cargarDatosReales_completar P (.ok (m :: ms)) s).1.tableBody =
      String.join ((m :: ms).map (filaHTML P)) ∧
    (cargarDatosReales_completar P (.ok (m :: ms)) s).1.temp =
      P.numToString (.fin m.temperatura) ++ " °C" ∧
    (cargarDatosReales_completar P (.ok (m :: ms)) s).1.hum =
      P.numToString (.fin m.humedad) ++ " %" ∧
    (cargarDatosReales_completar P (.ok (m :: ms)) s).1.bat =
      P.numToString (.fin m.bateria) ++ " %" ∧
    (s.hayCanvas = true →
      ∃ g, (cargarDatosReales_completar P (.ok (m :: ms)) s).1.miGrafico = some g ∧
        g.labels = (m :: ms).reverse.map (fun d => P.toLocaleTimeString (d.fecha ++ "Z")) ∧
        g.temperaturas = (m :: ms).reverse.map (fun d => d.temperatura) ∧
        g.humedades = (m :: ms).reverse.map (fun d => d.humedad)) ∧
    (cargarDatosReales_completar P (.ok (m :: ms)) s).1.alertas =
      "<br>".intercalate (mensajesUmbrales P m s) ∧
    (cargarDatosReales_completar P (.ok (m :: ms)) s).1.alertasHidden =
      decide (mensajesUmbrales P m s = []) ∧
    (cargarDatosReales_completar P (.ok (m :: ms)) s).1.intervaloDeActualizacion =
      s.intervaloDeActualizacion ∧
    (cargarDatosReales_completar P (.ok (m :: ms)) s).1.timers = s.timers ∧
    (cargarDatosReales_completar P (.ok (m :: ms)) s).1.token = s.token := by
  have hne : (m :: ms).length ≠ 0 := by simp
  have hc : (cargarDatosReales_completar P (.ok (m :: ms)) s).1 =
      { verificarUmbrales P (some m)
          (actualizarGrafico P (m :: ms)
            (actualizarTarjetas P (some m)
              (renderizarTabla P (m :: ms) { s with datosActuales := m :: ms })))
        with loadingHidden := true } := by
    simp [cargarDatosReales_completar, cuerpoTrasRespuesta]
  rw [hc]
  generalize hs3 : actualizarTarjetas P (some m)
    (renderizarTabla P (m :: ms) { s with datosActuales := m :: ms }) = s3
  have h3 : s3 = { s with datosActuales := m :: ms
                          tableBody := String.join ((m :: ms).map (filaHTML P))
                          temp := P.numToString (.fin m.temperatura) ++ " °C"
                          hum := P.numToString (.fin m.humedad) ++ " %"
                          bat := P.numToString (.fin m.bateria) ++ " %" } := by
    rw [← hs3]
    rfl
  obtain ⟨w, g, q, h4⟩ := actualizarGrafico_forma P (m :: ms) s3
  have hg := actualizarGrafico_miGrafico P (m :: ms) s3
  generalize actualizarGrafico P (m :: ms) s3 = s4 at h4 hg ⊢
  have hm : mensajesUmbrales P m s4 = mensajesUmbrales P m s := by
    rw [h4, h3]
    rfl
  obtain ⟨al, ah, h5⟩ := verificarUmbrales_forma P (some m) s4
  have ha : (verificarUmbrales P (some m) s4).alertas =
        "<br>".intercalate (mensajesUmbrales P m s) ∧
      (verificarUmbrales P (some m) s4).alertasHidden =
        decide (mensajesUmbrales P m s = []) := by
    simp only [verificarUmbrales, hm]
    cases hml : mensajesUmbrales P m s with
    | nil => simp [String.intercalate]
    | cons x xs => simp
  refine ⟨?_, ?_, ?_, ?_, ?_, ?_, ha.1, ha.2, ?_, ?_, ?_⟩
  · rw [h5, h4, h3]
  · rw [h5, h4, h3]
  · rw [h5, h4, h3]
  · rw [h5, h4, h3]
  · rw [h5, h4, h3]
  · intro hcv
    have hcv3 : s3.hayCanvas = true := by rw [h3]; exact hcv
    have hg1 := hg hcv3
    have hg2 : (verificarUmbrales P (some m) s4).miGrafico = s4.miGrafico := by rw [h5]
    exact ⟨_, hg2.trans hg1, rfl, rfl, rfl⟩
  · rw [h5, h4, h3]
  · rw [h5, h4, h3]
  · rw [h5, h4, h3]

/-- C10 on a concrete run: the late response of the run below is plotted
oldest first. -/
theorem C10_respuesta_tardia_se_aplica_witness :
    ∃ g, (cargarDatosReales_completar plataformaDecimal (.ok (m3 :: [m2, m1]))
        (ejecutar plataformaDecimal [.guardarToken "tok", .mostrarDashboard, .logout]
          paginaCargada)).1.miGrafico = some g ∧
      g.temperaturas = [23, 24, 25] := by
  obtain ⟨g, h1, _, h3, _⟩ :=
    (C10_respuesta_tardia_se_aplica plataformaDecimal m3 [m2, m1]
      (ejecutar plataformaDecimal [.guardarToken "tok", .mostrarDashboard, .logout]
        paginaCargada)).2.2.2.2.2.1 (by decide)
  exact ⟨g, h1, h3.trans (by decide)⟩

/-- C10 as stated fails: a request is issued by `mostrarDashboard`, `logout`
runs, and the request then completes with three records. Before the
completion the batch is empty and the cards show placeholders; after it the
batch holds the three records and the cards show the newest one, while the
session stays logged out. -/
theorem C10_respuesta_tardia_no_se_descarta :
    (ejecutar plataformaDecimal [.guardarToken "tok", .mostrarDashboard]
      paginaCargada).peticiones.length = 1 ∧
    (ejecutar plataformaDecimal [.guardarToken "tok", .mostrarDashboard, .logout]
      paginaCargada).datosActuales = [] ∧
    (ejecutar plataformaDecimal [.guardarToken "tok", .mostrarDashboard, .logout]
      paginaCargada).temp = "-- °C" ∧
    (ejecutar plataformaDecimal [.guardarToken "tok", .mostrarDashboard, .logout]
      paginaCargada).miGrafico = none ∧
    (ejecutar plataformaDecimal
      [.guardarToken "tok", .mostrarDashboard, .logout, .completar (.ok [m3, m2, m1])]
      paginaCargada).datosActuales = [m3, m2, m1] ∧
    (ejecutar plataformaDecimal
      [.guardarToken "tok", .mostrarDashboard, .logout, .completar (.ok [m3, m2, m1])]
      paginaCargada).temp = "25 °C" ∧
    (ejecutar plataformaDecimal
      [.guardarToken "tok", .mostrarDashboard, .logout, .completar (.ok [m3, m2, m1])]
      paginaCargada).miGrafico ≠ none ∧
    (ejecutar plataformaDecimal
      [.guardarToken "tok", .mostrarDashboard, .logout, .completar (.ok [m3, m2, m1])]
      paginaCargada).token = none := by
  decide

end Dimoca
